import Mathlib

/-!
Verification of the ReSTIR GDI resampling core (HanBinGer/ReSTIRGDI).

Shallow embedding of the reservoir / RIS-state data model and the
resampling algorithms of `Source/Modules/ReSTIRGDI` into Lean 4.
Shader floats are modelled as rationals (`ℚ`); where IEEE special values
(Inf/NaN) are essential, an extended type `ExtF` is used.  External scene
evaluations (target function, BSDF pdf, visibility) enter as oracle
parameters, matching the narrow interfaces of the spec.
-/

namespace ReSTIRGDI

/-- HLSL `clamp(x, lo, hi) = min(max(x, lo), hi)`. -/
def clampQ (x lo hi : ℚ) : ℚ := min (max x lo) hi

/-- HLSL `uint(x)` cast of a (non-negative in all uses) float, i.e. truncation. -/
def qToUInt (q : ℚ) : ℕ := (⌊q⌋).toNat

/-- A rational is never an IEEE infinity; models `isinf` on finite values. -/
def isinfQ (_ : ℚ) : Bool := false

/-- A rational is never an IEEE NaN; models `isnan` on finite values. -/
def isnanQ (_ : ℚ) : Bool := false

/-- Kind tag of a light sample (`LightSample.slang`). -/
inductive LightKind where
  | invalid : LightKind
  | env : LightKind
  | emissive : LightKind
  | analytic : LightKind
deriving DecidableEq, Repr

/-- Compact reference to a light plus its positional payload
(`LightSample.slang`); equality is by the encoded contents. -/
structure LightSample where
  kind : LightKind
  index : ℕ
deriving DecidableEq, Repr

/-- `LightSample::createInvalid()`. -/
def LightSample.createInvalid : LightSample := ⟨LightKind.invalid, 0⟩

/-- `LightSample::isValid()`: the kind tag is not `Invalid`. -/
def LightSample.isValid (s : LightSample) : Bool := s.kind ≠ LightKind.invalid

/-- Persisted reservoir (`Reservoir.slang`): selected light sample, sample
count `M` (uint), UCW `weight`, path-sample tag and target pdf. -/
structure Reservoir where
  lightSample : LightSample
  M : ℕ
  weight : ℚ
  pathSample : ℕ
  targetPdf : ℚ
deriving DecidableEq, Repr

/-- `Reservoir::createEmpty(pathSample)`. -/
def Reservoir.createEmpty (pathSample : ℕ := 2) : Reservoir :=
  ⟨LightSample.createInvalid, 0, 0, pathSample, 0⟩

/-- `Reservoir::isLightSampleValid()`. -/
def Reservoir.isLightSampleValid (r : Reservoir) : Bool := r.lightSample.isValid

/-- Transient RIS accumulator (`Resampling.slang`, struct `RisState`). -/
structure RisState where
  lightSample : LightSample
  pathSample : ℕ
  weightSum : ℚ
  M : ℚ
  weight : ℚ
  targetPdf : ℚ
  canonicalWeight : ℚ
deriving DecidableEq, Repr

/-- `RisState::createEmpty(pathSample)`. -/
def RisState.createEmpty (pathSample : ℕ := 2) : RisState :=
  ⟨LightSample.createInvalid, pathSample, 0, 0, 0, 0, 0⟩

/-- `RisState::createEmpty(reservoir)`: empty state inheriting the
reservoir's path-sample tag. -/
def RisState.createEmptyFrom (r : Reservoir) : RisState :=
  ⟨LightSample.createInvalid, r.pathSample, 0, 0, 0, 0, 0⟩

/-- `RisState::toReservoir()`: convert the state to a reservoir (`M` cast to
uint); an empty reservoir is returned if the weight is infinite or NaN
(never the case for a rational weight, but the guard is kept as in source). -/
def RisState.toReservoir (s : RisState) : Reservoir :=
  let reservoir : Reservoir :=
    ⟨s.lightSample, qToUInt s.M, s.weight, s.pathSample, s.targetPdf⟩
  if isinfQ reservoir.weight || isnanQ reservoir.weight then
    Reservoir.createEmpty s.pathSample
  else reservoir

/-- `streamingInitialResampleMIS(state, lightSample, targetPdf, sourcePdf,
misWeight, sg)` (Resampling.slang): one streaming RIS update.  The single
`sampleNext1D(sg)` draw enters as the parameter `u`.  Returns the updated
state and whether the new sample was selected. -/
def streamingInitialResampleMIS (state : RisState) (lightSample : LightSample)
    (targetPdf sourcePdf misWeight u : ℚ) : RisState × Bool :=
  let sampleWeight := misWeight * targetPdf / sourcePdf
  let state := { state with weightSum := state.weightSum + sampleWeight,
                            M := state.M + 1 }
  let selectSample := u * state.weightSum < sampleWeight
  if selectSample then
    ({ state with lightSample := lightSample, targetPdf := targetPdf }, true)
  else (state, false)

/-- `mFactor(q0, q1)` (Resampling.slang): heuristic confidence scale. -/
def mFactor (q0 q1 : ℚ) : ℚ :=
  if q0 = 0 then 1 else clampQ ((min (q1 / q0) 1) ^ (8 : ℕ)) 0 1

/-- `pairwiseMIS_nonDefensiveNonCanonical` (Resampling.slang). -/
def pairwiseMIS_nonDefensiveNonCanonical
    (mSum mCandidate pi mCanonical pc : ℚ) (out_J : ℚ := 1) : ℚ :=
  let pHatFrom_i := pi * out_J
  if pc = 0 then 0 else
    mCandidate * pHatFrom_i / ((mSum - mCanonical) * pHatFrom_i + mCanonical * pc)

/-- `pairwiseMIS_nonDefensiveCanonical` (Resampling.slang). -/
def pairwiseMIS_nonDefensiveCanonical
    (mSum mCandidate pi mCanonical pc : ℚ) (out_J : ℚ := 1) : ℚ :=
  let w := mCanonical * pc
  let pHatFrom_i := pi * out_J
  if pc = 0 then 0 else
    mCandidate / (mSum - mCanonical) * w / ((mSum - mCanonical) * pHatFrom_i + w)

/-- `pairwiseMIS_defensiveNonCanonical` (Resampling.slang). -/
def pairwiseMIS_defensiveNonCanonical
    (mSum mCandidate pi mCanonical pc : ℚ) (out_J : ℚ := 1) : ℚ :=
  let pHatFrom_i := pi * out_J
  let w := (mSum - mCanonical) * pHatFrom_i
  if pc = 0 then 0 else
    mCandidate / mSum * w / (w + mCanonical * pc)

/-- `pairwiseMIS_defensiveCanonical` (Resampling.slang). -/
def pairwiseMIS_defensiveCanonical
    (mSum mCandidate pi mCanonical pc : ℚ) (out_J : ℚ := 1) : ℚ :=
  let pHatFrom_i := pi * out_J
  let w := mCanonical * pc
  if pc = 0 then 0 else
    mCandidate / mSum * w / ((mSum - mCanonical) * pHatFrom_i + w)

/-- `temporalResamplePointReservoirPairwiseMIS` (Resampling.slang): one
temporal pairwise-MIS merge of the candidate (previous-frame) reservoir into
the RIS state.  The two cross-evaluations of `evalTargetFunction` enter as
oracle parameters `candidateTargetPdfAtOther` / `canonicalTargetPdfAtOther`,
and the `sampleNext1D(sg)` draw as `u`. -/
def temporalResamplePointReservoirPairwiseMIS (state : RisState)
    (canonicalReservoir candidateReservoir : Reservoir)
    (candidateTargetPdfAtOther canonicalTargetPdfAtOther : ℚ)
    (useMFactor : Bool) (confidenceWeightSum intersectAreaSize u : ℚ) :
    RisState × Bool :=
  let canonicalTargetPdf := canonicalReservoir.targetPdf
  let candidateTargetPdf := candidateReservoir.targetPdf
  let candidateConfidenceWeight := (candidateReservoir.M : ℚ) * intersectAreaSize
  let m0 := pairwiseMIS_nonDefensiveNonCanonical confidenceWeightSum
      candidateConfidenceWeight candidateTargetPdf (canonicalReservoir.M : ℚ)
      candidateTargetPdfAtOther
  let m1 := pairwiseMIS_nonDefensiveCanonical confidenceWeightSum
      candidateConfidenceWeight canonicalTargetPdfAtOther (canonicalReservoir.M : ℚ)
      canonicalTargetPdf
  let sampleWeight := candidateTargetPdfAtOther * candidateReservoir.weight * m0
  let mScaler := min (mFactor candidateTargetPdf candidateTargetPdfAtOther)
      (mFactor canonicalTargetPdfAtOther canonicalTargetPdf)
  let state := { state with
      M := state.M + candidateConfidenceWeight * (if useMFactor then mScaler else 1),
      weightSum := state.weightSum + sampleWeight,
      canonicalWeight := state.canonicalWeight + m1 }
  let selectSample := u * state.weightSum < sampleWeight
  if selectSample then
    ({ state with lightSample := candidateReservoir.lightSample,
                  targetPdf := candidateTargetPdfAtOther }, true)
  else (state, false)

/-- `spatialResamplePointReservoirPairwiseMIS` (Resampling.slang): one
spatial pairwise-MIS merge of a neighbor reservoir into the RIS state, with
the cross-evaluated target-function values and the RNG draw as parameters. -/
def spatialResamplePointReservoirPairwiseMIS (state : RisState)
    (canonicalReservoir candidateReservoir : Reservoir)
    (candidateTargetPdfAtOther canonicalTargetPdfAtOther : ℚ)
    (useMFactor : Bool) (confidenceWeightSum u : ℚ) : RisState × Bool :=
  let canonicalTargetPdf := canonicalReservoir.targetPdf
  let candidateTargetPdf := candidateReservoir.targetPdf
  let candidateConfidenceWeight := (candidateReservoir.M : ℚ)
  let m0 := pairwiseMIS_defensiveNonCanonical confidenceWeightSum
      candidateConfidenceWeight candidateTargetPdf (canonicalReservoir.M : ℚ)
      candidateTargetPdfAtOther
  let m1 := pairwiseMIS_defensiveCanonical confidenceWeightSum
      candidateConfidenceWeight canonicalTargetPdfAtOther (canonicalReservoir.M : ℚ)
      canonicalTargetPdf
  let sampleWeight := candidateTargetPdfAtOther * candidateReservoir.weight * m0
  let mScaler := min (mFactor candidateTargetPdf candidateTargetPdfAtOther)
      (mFactor canonicalTargetPdfAtOther canonicalTargetPdf)
  let state := { state with
      M := state.M + candidateConfidenceWeight * (if useMFactor then mScaler else 1),
      weightSum := state.weightSum + sampleWeight,
      canonicalWeight := state.canonicalWeight + m1 }
  let selectSample := u * state.weightSum < sampleWeight
  if selectSample then
    ({ state with lightSample := candidateReservoir.lightSample,
                  targetPdf := candidateTargetPdfAtOther }, true)
  else (state, false)

/-- `streamingResampleFinalizeMis` (Resampling.slang): fold the canonical
reservoir's own sample back in with the accumulated canonical MIS weight. -/
def streamingResampleFinalizeMis (state : RisState)
    (canonicalReservoir : Reservoir) (canonicalTargetPdf u : ℚ) :
    RisState × Bool :=
  let sampleWeight :=
    state.canonicalWeight * canonicalTargetPdf * canonicalReservoir.weight * 1
  let state := { state with M := state.M + (canonicalReservoir.M : ℚ),
                            weightSum := state.weightSum + sampleWeight }
  let selectSample := u * state.weightSum < sampleWeight
  if selectSample then
    ({ state with targetPdf := canonicalTargetPdf,
                  lightSample := canonicalReservoir.lightSample,
                  pathSample := canonicalReservoir.pathSample }, true)
  else (state, false)

namespace InitialResampling

/-- Background path of `InitialResampling::process` (InitialResampling.cs.slang,
invalid-surface early return): a trivial path-sample-1 reservoir with `M = 1`,
`weight = 1` and the target function of the emission path as target pdf. -/
def backgroundReservoir (targetPdfEval : ℚ) : Reservoir :=
  { Reservoir.createEmpty 1 with M := 1, targetPdf := targetPdfEval, weight := 1 }

/-- Visibility check of `InitialResampling::process` (InitialResampling.cs.slang,
lines 247-255): if visibility checking is enabled and the selected valid
light sample (path sample 2) is occluded (`selectedVisibility = 0`), the
whole RIS state is reset to empty. -/
def visibilityDiscard (risState : RisState) (checkVisibility : Bool)
    (selectedVisibility : ℚ) : RisState :=
  if checkVisibility && risState.lightSample.isValid && (risState.pathSample == 2)
      && (selectedVisibility == 0) then
    RisState.createEmpty 2
  else risState

/-- Tail of `InitialResampling::process` (visibility check + finalization +
`toReservoir`, lines 247-264): after the optional visibility discard,
`weight := targetPdf > 0 ? weightSum/targetPdf : 0` and `M := 1`, and the
state is converted to the stored reservoir. -/
def finalize (risState : RisState) (checkVisibility : Bool)
    (selectedVisibility : ℚ) : Reservoir :=
  let risState := visibilityDiscard risState checkVisibility selectedVisibility
  let risState := { risState with
      weight := if risState.targetPdf > 0 then risState.weightSum / risState.targetPdf
                else 0,
      M := 1 }
  risState.toReservoir

end InitialResampling

namespace TemporalResampling

/-- History clamp of `TemporalResampling::process` (part_002, line 75):
`prevReservoir.M = min(prevReservoir.M, currentReservoir.M * kMaxHistoryLength)`. -/
def clampHistory (prevReservoir currentReservoir : Reservoir)
    (kMaxHistoryLength : ℕ) : Reservoir :=
  { prevReservoir with M := min prevReservoir.M (currentReservoir.M * kMaxHistoryLength) }

/-- Finalization of `TemporalResampling::process` (part_002, lines 93-97):
fold the current reservoir back in, compute the UCW and convert. -/
def finalize (risState : RisState) (currentReservoir : Reservoir)
    (currentTargetPdf u : ℚ) : Reservoir :=
  let risState := (streamingResampleFinalizeMis risState currentReservoir
      currentTargetPdf u).1
  let risState := { risState with
      weight := if risState.targetPdf > 0 then risState.weightSum / risState.targetPdf
                else 0 }
  risState.toReservoir

end TemporalResampling

namespace SpatialResampling

/-- Finalization of `SpatialResampling::process` (ReSTIRGDI.slang, lines
289-294): fold the current reservoir back in, restore `M` from the current
reservoir, compute the UCW and convert. -/
def finalize (risState : RisState) (currentReservoir : Reservoir) (u : ℚ) :
    Reservoir :=
  let risState := (streamingResampleFinalizeMis risState currentReservoir
      currentReservoir.targetPdf u).1
  let risState := { risState with M := (currentReservoir.M : ℚ) }
  let risState := { risState with
      weight := if risState.targetPdf > 0 then risState.weightSum / risState.targetPdf
                else 0 }
  risState.toReservoir

end SpatialResampling

/-- A shader `float3`, modelled componentwise. -/
structure Vec3 where
  x : ℚ
  y : ℚ
  z : ℚ
deriving DecidableEq, Repr

/-- Zero vector (`float3(0)` / zero-initialized `{}`). -/
def Vec3.zero : Vec3 := ⟨0, 0, 0⟩

/-- Scalar times `float3`. -/
def Vec3.smul (a : ℚ) (v : Vec3) : Vec3 := ⟨a * v.x, a * v.y, a * v.z⟩

/-- Per-pixel final sample record (`FinalSample.slang`, fields used by
`evalPathIncidentRadiance`). -/
structure FinalSample where
  dir : Vec3
  distance : ℚ
  Li : Vec3
deriving DecidableEq, Repr

/-- Zero-initialized final sample (`FinalSample finalSample = {}`). -/
def FinalSample.createEmpty : FinalSample := ⟨Vec3.zero, 0, Vec3.zero⟩

namespace EvaluateFinalSamples

/-- `EvaluateFinalSamples::evalPathIncidentRadiance` (part_000): writes the
weighted incident radiance of the reservoir's sample into the final sample.
External evaluations enter as oracles: `emission` is the context's primary-hit
emission, (`evalDir`, `evalDistance`, `geomFactor`, `lightEmission`) come from
`lights.evalLightSample` / `lights.evalEmission`, and `visibility` from
`evalContext.evalVisibility`.  Returns the updated final sample and `Li`. -/
def evalPathIncidentRadiance (reservoir : Reservoir) (emission : Vec3)
    (useVisibility : Bool) (visibility : ℚ) (evalDir : Vec3)
    (evalDistance geomFactor : ℚ) (lightEmission : Vec3)
    (finalSample : FinalSample) : FinalSample × Vec3 :=
  if reservoir.pathSample == 1 then
    let fs := { finalSample with Li := Vec3.smul reservoir.weight emission }
    (fs, fs.Li)
  else if reservoir.pathSample == 2 && reservoir.isLightSampleValid then
    let vis : ℚ := if useVisibility then visibility else 1
    if vis > 0 then
      let fs := { finalSample with
          dir := evalDir,
          distance := evalDistance,
          Li := Vec3.smul (reservoir.weight * geomFactor) lightEmission }
      (fs, fs.Li)
    else (finalSample, finalSample.Li)
  else (finalSample, finalSample.Li)

end EvaluateFinalSamples

/-- Modelled from the spec: `TinyUniformSampleGenerator` (Falcor utility, not
part of this repository's sources) — the seeded per-thread generator from
which, per the spec, "all randomness is derived deterministically".  Modelled
as a 32-bit LCG state. -/
structure TinyUniformSampleGenerator where
  state : ℕ
deriving DecidableEq, Repr

/-- Modelled from the spec: constructing the generator from a 2D pixel (or
tile) coordinate and a sample number, a pure hash of its arguments. -/
def TinyUniformSampleGenerator.create2D (pixel : ℕ × ℕ) (sampleNum : ℕ) :
    TinyUniformSampleGenerator :=
  ⟨(pixel.1 * 2654435769 + pixel.2 * 2246822519 + sampleNum * 3266489917) % 2 ^ 32⟩

/-- Modelled from the spec: `sampleNext1D(sg)` — advance the generator and
return a value in `[0, 1)` together with the new generator state. -/
def sampleNext1D (sg : TinyUniformSampleGenerator) :
    ℚ × TinyUniformSampleGenerator :=
  let s : ℕ := (1664525 * sg.state + 1013904223) % 2 ^ 32
  ((s : ℚ) / 2 ^ 32, ⟨s⟩)

/-- Static configuration of the initial resampling pass
(`InitialResampling.cs.slang`, light-candidate path). -/
structure InitialParams where
  kLightTileCount : ℕ
  kLightTileSize : ℕ
  kScreenTileSize : ℕ
  kInitialLightSampleCount : ℕ
  kCheckVisibility : Bool
deriving DecidableEq, Repr

/-- The light population visible to one pixel of the initial pass: the light
tile buffer plus the per-sample oracle evaluations (source pdf, balance
heuristic MIS weight, target function) at this pixel's surface, indexed by
light-tile buffer index, and the visibility of a selected sample. -/
structure LightEnv where
  tileSample : ℕ → LightSample
  pdf : ℕ → ℚ
  mis : ℕ → ℚ
  pHat : ℕ → ℚ
  visibility : LightSample → ℚ

namespace InitialResampling

/-- The light-candidate loop of `InitialResampling::process`
(InitialResampling.cs.slang, lines 162-172): stream `count` stratified light
tile samples through `streamingInitialResampleMIS`, threading the sample
generator. -/
def lightLoop (env : LightEnv) (kLightTileSize lightTileOffset offset stride : ℕ) :
    ℕ → ℕ → RisState → TinyUniformSampleGenerator →
    RisState × TinyUniformSampleGenerator
  | 0, _, state, sg => (state, sg)
  | n + 1, i, state, sg =>
      let index := lightTileOffset + (offset + i * stride) % kLightTileSize
      let (u, sg) := sampleNext1D sg
      let (state, _) := streamingInitialResampleMIS state (env.tileSample index)
          (env.pHat index) (env.pdf index) (env.mis index) u
      lightLoop env kLightTileSize lightTileOffset offset stride n (i + 1) state sg

/-- `InitialResampling::process` for a valid-surface pixel with light
candidates only (no BRDF candidates, no merged emission path), given the
derived sample number: light-tile selection, stratification offset, the
streaming loop, and finalization (lines 115-172 and 244-264). -/
def processCore (p : InitialParams) (env : LightEnv) (pixel : ℕ × ℕ)
    (sampleNum : ℕ) : Reservoir :=
  let screenTile := (pixel.1 / p.kScreenTileSize, pixel.2 / p.kScreenTileSize)
  let tileSg := TinyUniformSampleGenerator.create2D screenTile sampleNum
  let (uTile, _) := sampleNext1D tileSg
  let tileIndex := min (qToUInt (uTile * p.kLightTileCount)) (p.kLightTileCount - 1)
  let lightTileOffset := tileIndex * p.kLightTileSize
  let sg := TinyUniformSampleGenerator.create2D pixel sampleNum
  let stride := (p.kLightTileSize + p.kInitialLightSampleCount - 1) /
      p.kInitialLightSampleCount
  let (uOff, sg) := sampleNext1D sg
  let offset := min (qToUInt (uOff * stride)) (stride - 1)
  let (risState, _) := lightLoop env p.kLightTileSize lightTileOffset offset stride
      p.kInitialLightSampleCount 0 (RisState.createEmpty 2) sg
  finalize risState p.kCheckVisibility (env.visibility risState.lightSample)

/-- `InitialResampling::process`: the sample number is derived from the frame
index and the ReSTIR pass index as `frameIndex + 8 * restirPassIdx`
(InitialResampling.cs.slang, line 127). -/
def process (p : InitialParams) (env : LightEnv) (pixel : ℕ × ℕ)
    (frameIndex restirPassIdx : ℕ) : Reservoir :=
  let sampleNum := frameIndex + 8 * restirPassIdx
  processCore p env pixel sampleNum

end InitialResampling

/-- Extended shader float for the Inf/NaN-sensitive paths: a finite rational
or one of the IEEE special values `+Inf`, `-Inf`, `NaN`. -/
inductive ExtF where
  | fin (q : ℚ) : ExtF
  | inf : ExtF
  | ninf : ExtF
  | nan : ExtF
deriving DecidableEq, Repr

namespace ExtF

/-- HLSL `isinf`: true exactly on the two infinities. -/
def isinf : ExtF → Bool
  | inf => true
  | ninf => true
  | _ => false

/-- HLSL `isnan`: true exactly on NaN. -/
def isnan : ExtF → Bool
  | nan => true
  | _ => false

/-- The comparison `x > 0.f` under IEEE semantics (NaN compares false). -/
def gtZero : ExtF → Bool
  | fin q => q > 0
  | inf => true
  | ninf => false
  | nan => false

/-- IEEE division on extended floats (zero is treated as `+0`). -/
def div : ExtF → ExtF → ExtF
  | nan, _ => nan
  | _, nan => nan
  | inf, inf => nan
  | inf, ninf => nan
  | ninf, inf => nan
  | ninf, ninf => nan
  | inf, fin b => if b < 0 then ninf else inf
  | ninf, fin b => if b < 0 then inf else ninf
  | fin _, inf => fin 0
  | fin _, ninf => fin 0
  | fin a, fin b =>
      if b = 0 then (if a = 0 then nan else if a > 0 then inf else ninf)
      else fin (a / b)

/-- HLSL `uint(x)` cast; the cast of a non-finite value is not specified by
HLSL and is modelled as `0` (never relied on below). -/
def toUInt : ExtF → ℕ
  | fin q => (⌊q⌋).toNat
  | _ => 0

end ExtF

/-- `Reservoir` with extended-float weight fields. -/
structure ReservoirE where
  lightSample : LightSample
  M : ℕ
  weight : ExtF
  pathSample : ℕ
  targetPdf : ExtF
deriving DecidableEq, Repr

/-- `Reservoir::createEmpty(pathSample)` over extended floats. -/
def ReservoirE.createEmpty (pathSample : ℕ := 2) : ReservoirE :=
  ⟨LightSample.createInvalid, 0, ExtF.fin 0, pathSample, ExtF.fin 0⟩

/-- `RisState` with extended-float fields. -/
structure RisStateE where
  lightSample : LightSample
  pathSample : ℕ
  weightSum : ExtF
  M : ExtF
  weight : ExtF
  targetPdf : ExtF
  canonicalWeight : ExtF
deriving DecidableEq, Repr

/-- `RisState::toReservoir()` over extended floats (Resampling.slang, lines
79-89): an empty reservoir is returned if the weight is infinite or NaN. -/
def RisStateE.toReservoir (s : RisStateE) : ReservoirE :=
  let reservoir : ReservoirE :=
    ⟨s.lightSample, s.M.toUInt, s.weight, s.pathSample, s.targetPdf⟩
  if reservoir.weight.isinf || reservoir.weight.isnan then
    ReservoirE.createEmpty s.pathSample
  else reservoir

/-- The finalize guard `targetPdf > 0.f ? weightSum / targetPdf : 0.f` common
to all three resampling stages, over extended floats. -/
def finalizeWeightE (weightSum targetPdf : ExtF) : ExtF :=
  if targetPdf.gtZero then weightSum.div targetPdf else ExtF.fin 0

/-- Tail of `InitialResampling::process` over extended floats
(InitialResampling.cs.slang, lines 257-264, after the optional visibility
reset): compute the UCW, overwrite `M` with `1`, convert to a reservoir. -/
def initialFinalizeE (s : RisStateE) : ReservoirE :=
  RisStateE.toReservoir
    { s with weight := finalizeWeightE s.weightSum s.targetPdf, M := ExtF.fin 1 }

/-- The spec's closed form for `nonDefensiveNonCanonical` (§4.4), written
from the spec's words for comparison with the source function:
`mCand * p_i / ((mSum-mCanon)*p_i + mCanon*p_c)  [if p_c>0 else 0]`. -/
def specNonDefensiveNonCanonical (mSum mCand pi mCanon pc : ℚ) : ℚ :=
  if pc > 0 then mCand * pi / ((mSum - mCanon) * pi + mCanon * pc) else 0

/-- The spec's closed form for `nonDefensiveCanonical` (§4.4), written from
the spec's words:
`(mCand/(mSum-mCanon)) * (mCanon*p_c) / ((mSum-mCanon)*p_i + mCanon*p_c)`. -/
def specNonDefensiveCanonical (mSum mCand pi mCanon pc : ℚ) : ℚ :=
  mCand / (mSum - mCanon) * (mCanon * pc) / ((mSum - mCanon) * pi + mCanon * pc)

/-- The spec's closed form for `defensiveNonCanonical` (§4.4), written from
the spec's words:
`(mCand/mSum) * ((mSum-mCanon)*p_i) / ((mSum-mCanon)*p_i + mCanon*p_c)`. -/
def specDefensiveNonCanonical (mSum mCand pi mCanon pc : ℚ) : ℚ :=
  mCand / mSum * ((mSum - mCanon) * pi) / ((mSum - mCanon) * pi + mCanon * pc)

/-- The spec's closed form for `defensiveCanonical` (§4.4), written from the
spec's words:
`(mCand/mSum) * (mCanon*p_c) / ((mSum-mCanon)*p_i + mCanon*p_c)`. -/
def specDefensiveCanonical (mSum mCand pi mCanon pc : ℚ) : ℚ :=
  mCand / mSum * (mCanon * pc) / ((mSum - mCanon) * pi + mCanon * pc)

/-- The M-factor as the spec's words describe it (§4.4), written for
comparison with the source: the eighth power of the ratio of the smaller to
the larger of the candidate sample's two target-function values, clamped to
`[0,1]`. -/
def specMFactorClaim (tpAtOther tp : ℚ) : ℚ :=
  clampQ ((min tpAtOther tp / max tpAtOther tp) ^ (8 : ℕ)) 0 1

/-- C1: `streamingInitialResampleMIS` computes
`sampleWeight = misWeight * targetPdf / sourcePdf`, adds it to the state's
weight sum, increments `M` by exactly 1, replaces the held sample (setting
`lightSample` and `targetPdf`) if and only if
`u * weightSum < sampleWeight` with the updated weight sum, and the returned
boolean equals whether the replacement happened. -/
theorem C1_streamingInitialResampleMIS (s : RisState) (ls : LightSample)
    (targetPdf sourcePdf misWeight u : ℚ) :
    (streamingInitialResampleMIS s ls targetPdf sourcePdf misWeight u).1.weightSum
        = s.weightSum + misWeight * targetPdf / sourcePdf
    ∧ (streamingInitialResampleMIS s ls targetPdf sourcePdf misWeight u).1.M
        = s.M + 1
    ∧ ((streamingInitialResampleMIS s ls targetPdf sourcePdf misWeight u).2 = true
        ↔ u * (s.weightSum + misWeight * targetPdf / sourcePdf)
            < misWeight * targetPdf / sourcePdf)
    ∧ (streamingInitialResampleMIS s ls targetPdf sourcePdf misWeight u).1.lightSample
        = (if u * (s.weightSum + misWeight * targetPdf / sourcePdf)
              < misWeight * targetPdf / sourcePdf then ls else s.lightSample)
    ∧ (streamingInitialResampleMIS s ls targetPdf sourcePdf misWeight u).1.targetPdf
        = (if u * (s.weightSum + misWeight * targetPdf / sourcePdf)
              < misWeight * targetPdf / sourcePdf then targetPdf else s.targetPdf) := by
  unfold streamingInitialResampleMIS
  dsimp only
  split
  · next h => simp [h]
  · next h => simp [h]

/-- C2 counterexample: at `(mSum, mCand, p_i, mCanon, p_c) = (2, 1, 1, 1, 0)`
the source's `pairwiseMIS_defensiveNonCanonical` returns `0` (the `p_c == 0`
guard), while the spec's closed form evaluates to `1/2`; the claim that the
function computes the closed form exactly is therefore false. -/
theorem C2_counterexample :
    pairwiseMIS_defensiveNonCanonical 2 1 1 1 0 1 = 0
    ∧ specDefensiveNonCanonical 2 1 1 1 0 = 1 / 2
    ∧ pairwiseMIS_defensiveNonCanonical 2 1 1 1 0 1
        ≠ specDefensiveNonCanonical 2 1 1 1 0 := by
  norm_num [pairwiseMIS_defensiveNonCanonical, specDefensiveNonCanonical]

/-- C2 amended: each of the four pairwise-MIS functions returns exactly `0`
when `p_c = 0`; away from that guard (and, for the first function, for any
non-negative `p_c`) they compute the spec's closed-form expressions.  The
`defensiveNonCanonical` variant deviates from its closed form exactly at the
`p_c = 0` guard. -/
theorem C2_pairwiseMIS_closed_forms (mSum mCand pi mCanon pc : ℚ) :
    (0 ≤ pc → pairwiseMIS_nonDefensiveNonCanonical mSum mCand pi mCanon pc 1
        = specNonDefensiveNonCanonical mSum mCand pi mCanon pc)
    ∧ pairwiseMIS_nonDefensiveCanonical mSum mCand pi mCanon pc 1
        = specNonDefensiveCanonical mSum mCand pi mCanon pc
    ∧ pairwiseMIS_defensiveNonCanonical mSum mCand pi mCanon pc 1
        = (if pc = 0 then 0 else specDefensiveNonCanonical mSum mCand pi mCanon pc)
    ∧ pairwiseMIS_defensiveCanonical mSum mCand pi mCanon pc 1
        = specDefensiveCanonical mSum mCand pi mCanon pc := by
  refine ⟨fun hpc => ?_, ?_, ?_, ?_⟩
  · rcases eq_or_lt_of_le hpc with h | h
    · simp [pairwiseMIS_nonDefensiveNonCanonical, specNonDefensiveNonCanonical, ← h]
    · simp [pairwiseMIS_nonDefensiveNonCanonical, specNonDefensiveNonCanonical,
        h, h.ne', mul_one]
  · by_cases h : pc = 0 <;>
      simp [pairwiseMIS_nonDefensiveCanonical, specNonDefensiveCanonical, h, mul_one]
  · by_cases h : pc = 0 <;>
      simp [pairwiseMIS_defensiveNonCanonical, specDefensiveNonCanonical, h, mul_one]
  · by_cases h : pc = 0 <;>
      simp [pairwiseMIS_defensiveCanonical, specDefensiveCanonical, h, mul_one]

/-- Witness for C2: at `(2, 1, 1, 1, 1)` the hypothesis `0 ≤ p_c` holds and
the first closed-form equation follows from the amended theorem. -/
theorem C2_pairwiseMIS_closed_forms_witness :
    pairwiseMIS_nonDefensiveNonCanonical 2 1 1 1 1 1
      = specNonDefensiveNonCanonical 2 1 1 1 1 :=
  (C2_pairwiseMIS_closed_forms 2 1 1 1 1).1 (by norm_num)

/-- A quotient of non-negative numerator by a dominating denominator lies in
the unit interval (with the `x / 0 = 0` convention when both vanish). -/
lemma div_unit_of_le {num den : ℚ} (h0 : 0 ≤ num) (h1 : num ≤ den) :
    0 ≤ num / den ∧ num / den ≤ 1 := by
  rcases lt_or_eq_of_le (h0.trans h1) with hd | hd
  · exact ⟨div_nonneg h0 hd.le, (div_le_one hd).mpr h1⟩
  · have hnum : num = 0 := le_antisymm (h1.trans hd.symm.le) h0
    simp [hnum]

/-- `A * B / D` lies in the unit interval when `A` does, `B` is non-negative
and `B ≤ D`. -/
lemma mul_div_unit {A B D : ℚ} (hA0 : 0 ≤ A) (hA1 : A ≤ 1) (hB : 0 ≤ B)
    (hD : B ≤ D) : 0 ≤ A * B / D ∧ A * B / D ≤ 1 :=
  div_unit_of_le (mul_nonneg hA0 hB) (le_trans (mul_le_of_le_one_left hB hA1) hD)

/-- C5: for valid non-negative inputs with `mCanon + mCand ≤ mSum` and
`mSum > 0`, each of the four pairwise-MIS weight functions returns a value in
`[0, 1]`, and each returns exactly `0` when `p_c = 0`. -/
theorem C5_pairwiseMIS_bounds (mSum mCand pi mCanon pc : ℚ)
    (h1 : 0 ≤ mCand) (h2 : 0 ≤ pi) (h3 : 0 ≤ mCanon) (h4 : 0 ≤ pc)
    (h5 : mCanon + mCand ≤ mSum) (h6 : 0 < mSum) :
    (0 ≤ pairwiseMIS_nonDefensiveNonCanonical mSum mCand pi mCanon pc 1
      ∧ pairwiseMIS_nonDefensiveNonCanonical mSum mCand pi mCanon pc 1 ≤ 1)
    ∧ (0 ≤ pairwiseMIS_nonDefensiveCanonical mSum mCand pi mCanon pc 1
      ∧ pairwiseMIS_nonDefensiveCanonical mSum mCand pi mCanon pc 1 ≤ 1)
    ∧ (0 ≤ pairwiseMIS_defensiveNonCanonical mSum mCand pi mCanon pc 1
      ∧ pairwiseMIS_defensiveNonCanonical mSum mCand pi mCanon pc 1 ≤ 1)
    ∧ (0 ≤ pairwiseMIS_defensiveCanonical mSum mCand pi mCanon pc 1
      ∧ pairwiseMIS_defensiveCanonical mSum mCand pi mCanon pc 1 ≤ 1)
    ∧ (pc = 0 →
        pairwiseMIS_nonDefensiveNonCanonical mSum mCand pi mCanon pc 1 = 0
        ∧ pairwiseMIS_nonDefensiveCanonical mSum mCand pi mCanon pc 1 = 0
        ∧ pairwiseMIS_defensiveNonCanonical mSum mCand pi mCanon pc 1 = 0
        ∧ pairwiseMIS_defensiveCanonical mSum mCand pi mCanon pc 1 = 0) := by
  have hAc : mCand ≤ mSum - mCanon := by linarith
  have hA0 : (0 : ℚ) ≤ mSum - mCanon := le_trans h1 hAc
  have hBpc : (0 : ℚ) ≤ mCanon * pc := mul_nonneg h3 h4
  have hBpi : (0 : ℚ) ≤ (mSum - mCanon) * pi := mul_nonneg hA0 h2
  have hfst := div_unit_of_le h1 hAc
  have hDiv2 := div_unit_of_le h1 (by linarith : mCand ≤ mSum)
  refine ⟨?_, ?_, ?_, ?_, fun hpc => ?_⟩
  · by_cases hpc : pc = 0
    · simp [pairwiseMIS_nonDefensiveNonCanonical, hpc]
    · unfold pairwiseMIS_nonDefensiveNonCanonical
      rw [if_neg hpc]
      simp only [mul_one]
      exact div_unit_of_le (mul_nonneg h1 h2)
        (by nlinarith [mul_le_mul_of_nonneg_right hAc h2])
  · by_cases hpc : pc = 0
    · simp [pairwiseMIS_nonDefensiveCanonical, hpc]
    · unfold pairwiseMIS_nonDefensiveCanonical
      rw [if_neg hpc]
      simp only [mul_one]
      exact mul_div_unit hfst.1 hfst.2 hBpc (by linarith)
  · by_cases hpc : pc = 0
    · simp [pairwiseMIS_defensiveNonCanonical, hpc]
    · unfold pairwiseMIS_defensiveNonCanonical
      rw [if_neg hpc]
      simp only [mul_one]
      exact mul_div_unit hDiv2.1 hDiv2.2 hBpi (by linarith)
  · by_cases hpc : pc = 0
    · simp [pairwiseMIS_defensiveCanonical, hpc]
    · unfold pairwiseMIS_defensiveCanonical
      rw [if_neg hpc]
      simp only [mul_one]
      exact mul_div_unit hDiv2.1 hDiv2.2 hBpc (by linarith)
  · exact ⟨by simp [pairwiseMIS_nonDefensiveNonCanonical, hpc],
      by simp [pairwiseMIS_nonDefensiveCanonical, hpc],
      by simp [pairwiseMIS_defensiveNonCanonical, hpc],
      by simp [pairwiseMIS_defensiveCanonical, hpc]⟩

/-- Witness for C5: at `(mSum, mCand, p_i, mCanon, p_c) = (2, 1, 1, 1, 1)` all
hypotheses hold, so all four weights lie in `[0, 1]`. -/
theorem C5_pairwiseMIS_bounds_witness :
    0 ≤ pairwiseMIS_nonDefensiveNonCanonical 2 1 1 1 1 1
    ∧ pairwiseMIS_nonDefensiveNonCanonical 2 1 1 1 1 1 ≤ 1
    ∧ 0 ≤ pairwiseMIS_defensiveCanonical 2 1 1 1 1 1
    ∧ pairwiseMIS_defensiveCanonical 2 1 1 1 1 1 ≤ 1 := by
  have h := C5_pairwiseMIS_bounds 2 1 1 1 1 (by norm_num) (by norm_num)
    (by norm_num) (by norm_num) (by norm_num) (by norm_num)
  exact ⟨h.1.1, h.1.2, h.2.2.2.1.1, h.2.2.2.1.2⟩

/-- A RIS state reaching finalization with `targetPdf = NaN` (selected sample
kept valid, finite weight sum). -/
def stateNaNTargetPdf : RisStateE :=
  ⟨⟨LightKind.emissive, 0⟩, 2, ExtF.fin 1, ExtF.fin 1, ExtF.fin 0, ExtF.nan,
    ExtF.fin 0⟩

/-- A RIS state reaching finalization with `weightSum = Inf` and a positive
finite `targetPdf`. -/
def stateInfWeightSum : RisStateE :=
  ⟨⟨LightKind.emissive, 0⟩, 2, ExtF.inf, ExtF.fin 1, ExtF.fin 0, ExtF.fin 1,
    ExtF.fin 0⟩

/-- C3 counterexample: a state with `targetPdf = NaN` at finalization does
not collapse to the empty reservoir: the finalize guard
`targetPdf > 0 ? weightSum/targetPdf : 0` evaluates `NaN > 0` to false and
stores `weight = 0`, so `toReservoir` keeps `M = 1` and the valid light
sample, contradicting the claim that this case yields
`M = 0, weight = 0, lightSample = Invalid`. -/
theorem C3_counterexample :
    (initialFinalizeE stateNaNTargetPdf).M = 1
    ∧ (initialFinalizeE stateNaNTargetPdf).lightSample.isValid = true
    ∧ initialFinalizeE stateNaNTargetPdf ≠ ReservoirE.createEmpty 2 := by
  refine ⟨by decide, by decide, by decide⟩

/-- C3 amended: `toReservoir` yields the empty reservoir exactly when the
held weight is infinite or NaN, and preserves `lightSample`, `weight`,
`pathSample` and `targetPdf` for a finite weight; a `weightSum = Inf` with
positive finite `targetPdf` at finalization makes the computed UCW infinite
and therefore collapses to the empty reservoir.  (`targetPdf = NaN` instead
hits the finalize guard and produces `weight = 0` without collapsing.) -/
theorem C3_toReservoir_guard (s : RisStateE) :
    ((s.weight.isinf || s.weight.isnan) = true →
        s.toReservoir = ReservoirE.createEmpty s.pathSample)
    ∧ ((s.weight.isinf || s.weight.isnan) = false →
        s.toReservoir.lightSample = s.lightSample
        ∧ s.toReservoir.weight = s.weight
        ∧ s.toReservoir.pathSample = s.pathSample
        ∧ s.toReservoir.targetPdf = s.targetPdf)
    ∧ (∀ t : ℚ, s.weightSum = ExtF.inf → s.targetPdf = ExtF.fin t → 0 < t →
        initialFinalizeE s = ReservoirE.createEmpty s.pathSample) := by
  refine ⟨fun h => ?_, fun h => ?_, fun t hws htp ht => ?_⟩
  · unfold RisStateE.toReservoir
    simp [h]
  · unfold RisStateE.toReservoir
    simp [h]
  · unfold initialFinalizeE finalizeWeightE RisStateE.toReservoir
    rw [hws, htp]
    simp [ExtF.gtZero, ht, ExtF.div, asymm ht, ExtF.isinf]

/-- Witness for C3: the `weightSum = Inf`, `targetPdf = 1` state collapses to
the empty reservoir under finalization plus `toReservoir`. -/
theorem C3_toReservoir_guard_witness :
    initialFinalizeE stateInfWeightSum = ReservoirE.createEmpty 2 :=
  (C3_toReservoir_guard stateInfWeightSum).2.2 1 rfl rfl (by norm_num)

/-- C10 counterexample: for a state reaching initial-pass finalization with
`weightSum = Inf` and `targetPdf = 1`, the stored reservoir has `M = 0`, not
`M = 1`: the computed UCW is infinite and the Inf/NaN guard stores the empty
reservoir. -/
theorem C10_counterexample :
    (initialFinalizeE stateInfWeightSum).M = 0 := by decide

/-- C10 amended: the initial resampling pass stores `M = 1` on the background
path always, and on the valid-surface path whenever the computed UCW weight
is finite (in exact arithmetic this is unconditional); when the computed
weight is infinite or NaN, the guard stores the empty reservoir with `M = 0`
instead. -/
theorem C10_initial_M_one :
    (∀ tp : ℚ, (InitialResampling.backgroundReservoir tp).M = 1)
    ∧ (∀ (s : RisState) (cv : Bool) (vis : ℚ),
        (InitialResampling.finalize s cv vis).M = 1)
    ∧ (∀ s : RisStateE, (initialFinalizeE s).M =
        if ((finalizeWeightE s.weightSum s.targetPdf).isinf
            || (finalizeWeightE s.weightSum s.targetPdf).isnan) = true
        then 0 else 1) := by
  refine ⟨fun tp => rfl, fun s cv vis => ?_, fun s => ?_⟩
  · unfold InitialResampling.finalize RisState.toReservoir
    simp [isinfQ, isnanQ, qToUInt]
  · by_cases h : ((finalizeWeightE s.weightSum s.targetPdf).isinf
        || (finalizeWeightE s.weightSum s.targetPdf).isnan) = true
    · simp [initialFinalizeE, RisStateE.toReservoir, h, ReservoirE.createEmpty]
    · simp only [Bool.not_eq_true] at h
      simp [initialFinalizeE, RisStateE.toReservoir, h, ExtF.toUInt]

/-- A concrete RIS state reaching finalization: selected emissive sample,
`weightSum = 6`, `targetPdf = 3`. -/
def exampleFinalState : RisState :=
  ⟨⟨LightKind.emissive, 0⟩, 2, 6, 1, 0, 3, 0⟩

/-- C4: at the end of each resampling stage (initial, temporal, spatial),
the finalized UCW equals `weightSum / targetPdf` of the state reaching the
weight computation when its `targetPdf > 0`, and equals exactly `0` when its
`targetPdf = 0`, regardless of `weightSum`. -/
theorem C4_finalize_ucw :
    (∀ (s : RisState) (cv : Bool) (vis : ℚ),
      (0 < (InitialResampling.visibilityDiscard s cv vis).targetPdf →
        (InitialResampling.finalize s cv vis).weight
          = (InitialResampling.visibilityDiscard s cv vis).weightSum
            / (InitialResampling.visibilityDiscard s cv vis).targetPdf)
      ∧ ((InitialResampling.visibilityDiscard s cv vis).targetPdf = 0 →
        (InitialResampling.finalize s cv vis).weight = 0))
    ∧ (∀ (s : RisState) (cur : Reservoir) (tp u : ℚ),
      (0 < (streamingResampleFinalizeMis s cur tp u).1.targetPdf →
        (TemporalResampling.finalize s cur tp u).weight
          = (streamingResampleFinalizeMis s cur tp u).1.weightSum
            / (streamingResampleFinalizeMis s cur tp u).1.targetPdf)
      ∧ ((streamingResampleFinalizeMis s cur tp u).1.targetPdf = 0 →
        (TemporalResampling.finalize s cur tp u).weight = 0))
    ∧ (∀ (s : RisState) (cur : Reservoir) (u : ℚ),
      (0 < (streamingResampleFinalizeMis s cur cur.targetPdf u).1.targetPdf →
        (SpatialResampling.finalize s cur u).weight
          = (streamingResampleFinalizeMis s cur cur.targetPdf u).1.weightSum
            / (streamingResampleFinalizeMis s cur cur.targetPdf u).1.targetPdf)
      ∧ ((streamingResampleFinalizeMis s cur cur.targetPdf u).1.targetPdf = 0 →
        (SpatialResampling.finalize s cur u).weight = 0)) := by
  refine ⟨fun s cv vis => ⟨fun h => ?_, fun h => ?_⟩,
    fun s cur tp u => ⟨fun h => ?_, fun h => ?_⟩,
    fun s cur u => ⟨fun h => ?_, fun h => ?_⟩⟩
  · simp [InitialResampling.finalize, RisState.toReservoir, isinfQ, isnanQ, h]
  · simp [InitialResampling.finalize, RisState.toReservoir, isinfQ, isnanQ, h]
  · simp [TemporalResampling.finalize, RisState.toReservoir, isinfQ, isnanQ, h]
  · simp [TemporalResampling.finalize, RisState.toReservoir, isinfQ, isnanQ, h]
  · simp [SpatialResampling.finalize, RisState.toReservoir, isinfQ, isnanQ, h]
  · simp [SpatialResampling.finalize, RisState.toReservoir, isinfQ, isnanQ, h]

/-- Witness for C4: for the concrete final state with `weightSum = 6` and
`targetPdf = 3` (no visibility check), the stored UCW is `6 / 3 = 2`. -/
theorem C4_finalize_ucw_witness :
    (InitialResampling.finalize exampleFinalState false 1).weight = 2 := by
  have h := (C4_finalize_ucw.1 exampleFinalState false 1).1
    (by norm_num [InitialResampling.visibilityDiscard, exampleFinalState])
  rw [h]
  norm_num [InitialResampling.visibilityDiscard, exampleFinalState]

/-- C6: temporal resampling clamps the reused previous-frame reservoir's
sample count to `min(prevM, currentM * kMaxHistoryLength)` (all other fields
unchanged); in particular `prevM = 1000`, `currentM = 1`,
`kMaxHistoryLength = 20` yields a reused `M` of exactly `20`. -/
theorem C6_history_clamp :
    (∀ (prev cur : Reservoir) (k : ℕ),
      (TemporalResampling.clampHistory prev cur k).M = min prev.M (cur.M * k)
      ∧ (TemporalResampling.clampHistory prev cur k).lightSample = prev.lightSample
      ∧ (TemporalResampling.clampHistory prev cur k).weight = prev.weight
      ∧ (TemporalResampling.clampHistory prev cur k).targetPdf = prev.targetPdf)
    ∧ (TemporalResampling.clampHistory
        { Reservoir.createEmpty 2 with M := 1000 }
        { Reservoir.createEmpty 2 with M := 1 } 20).M = 20 := by
  exact ⟨fun prev cur k => ⟨rfl, rfl, rfl, rfl⟩, by decide⟩

/-- Current-pixel canonical reservoir for the C7 counterexample. -/
def canonEx : Reservoir := ⟨⟨LightKind.emissive, 0⟩, 1, 1, 2, 1⟩

/-- Candidate (previous-frame) reservoir for the C7 counterexample. -/
def candEx : Reservoir := ⟨⟨LightKind.emissive, 1⟩, 1, 1, 2, 1⟩

/-- C7 counterexample: with `targetPdfCandidate = 1`,
`targetPdfCandidateAtOther = 2` and canonical values both `1`, the temporal
pairwise merge adds the full confidence weight `1` to `M` (the source's
one-sided `mFactor` is `1` when the value increases), while the claimed
factor `clamp((min(2,1)/max(2,1))^8, 0, 1) = 1/256` would add `1/256`. -/
theorem C7_counterexample :
    (temporalResamplePointReservoirPairwiseMIS (RisState.createEmpty 2)
        canonEx candEx 2 1 true 2 1 1).1.M = 1
    ∧ specMFactorClaim 2 1 = 1 / 256
    ∧ (temporalResamplePointReservoirPairwiseMIS (RisState.createEmpty 2)
        canonEx candEx 2 1 true 2 1 1).1.M
      ≠ (RisState.createEmpty 2).M + (candEx.M : ℚ) * 1 * specMFactorClaim 2 1 := by
  refine ⟨?_, ?_, ?_⟩ <;>
    norm_num [temporalResamplePointReservoirPairwiseMIS,
      pairwiseMIS_nonDefensiveNonCanonical, pairwiseMIS_nonDefensiveCanonical,
      mFactor, clampQ, specMFactorClaim, canonEx, candEx, RisState.createEmpty]

/-- C7 amended: in both the temporal and spatial pairwise-MIS merges, the
candidate's confidence weight added to `M` is scaled (when the M-factor
option is on) by `min(mFactor(tpCand, tpCandAtOther), mFactor(tpCanonAtOther,
tpCanon))`, where `mFactor(q0, q1) = 1` if `q0 = 0` and
`clamp(min(q1/q0, 1)^8, 0, 1)` otherwise; the one-sided `mFactor` agrees
with the claimed `(min/max)^8` ratio exactly when the second value does not
exceed the first. -/
theorem C7_mFactor_scaling (s : RisState) (canon cand : Reservoir)
    (candAtOther canonAtOther : ℚ) (useM : Bool) (cws area u : ℚ) :
    (temporalResamplePointReservoirPairwiseMIS s canon cand candAtOther
        canonAtOther useM cws area u).1.M
      = s.M + (cand.M : ℚ) * area *
          (if useM then min (mFactor cand.targetPdf candAtOther)
              (mFactor canonAtOther canon.targetPdf) else 1)
    ∧ (spatialResamplePointReservoirPairwiseMIS s canon cand candAtOther
        canonAtOther useM cws u).1.M
      = s.M + (cand.M : ℚ) *
          (if useM then min (mFactor cand.targetPdf candAtOther)
              (mFactor canonAtOther canon.targetPdf) else 1)
    ∧ (∀ q0 q1 : ℚ, 0 < q0 → 0 ≤ q1 → q1 ≤ q0 →
        mFactor q0 q1 = (min q0 q1 / max q0 q1) ^ (8 : ℕ)) := by
  refine ⟨?_, ?_, fun q0 q1 h0 h1 h2 => ?_⟩
  · unfold temporalResamplePointReservoirPairwiseMIS
    dsimp only
    split <;> rfl
  · unfold spatialResamplePointReservoirPairwiseMIS
    dsimp only
    split <;> rfl
  · have hq : q1 / q0 ≤ 1 := (div_le_one h0).mpr h2
    have hq0 : 0 ≤ q1 / q0 := div_nonneg h1 h0.le
    unfold mFactor clampQ
    rw [if_neg h0.ne', min_eq_left hq, min_eq_right h2, max_eq_left h2,
      max_eq_left (pow_nonneg hq0 8), min_eq_left (pow_le_one₀ hq0 hq)]

/-- Witness for C7: `mFactor(2, 1) = (min(2,1)/max(2,1))^8 = 1/256` by the
amended theorem's one-sided agreement clause. -/
theorem C7_mFactor_scaling_witness :
    mFactor 2 1 = (min (2 : ℚ) 1 / max 2 1) ^ (8 : ℕ) :=
  (C7_mFactor_scaling (RisState.createEmpty 2) canonEx candEx 0 0 false 0 0
    0).2.2 2 1 (by norm_num) (by norm_num) (by norm_num)

/-- C8: in the initial pass with visibility checking enabled, an occluded
selected light sample (visibility `0`, valid sample, path sample 2) is
discarded: the stored reservoir holds an invalid light sample with zero
weight, contributes zero incident radiance at final-sample evaluation, and
its `M` bookkeeping remains `1` (non-zero). -/
theorem C8_visibility_discard (s : RisState)
    (hvalid : s.lightSample.isValid = true) (hpath : s.pathSample = 2)
    (emission lightEm evalDir : Vec3) (useVis : Bool)
    (vis evalDist geom : ℚ) :
    (InitialResampling.finalize s true 0).lightSample = LightSample.createInvalid
    ∧ (InitialResampling.finalize s true 0).weight = 0
    ∧ (InitialResampling.finalize s true 0).M = 1
    ∧ (EvaluateFinalSamples.evalPathIncidentRadiance
        (InitialResampling.finalize s true 0) emission useVis vis evalDir
        evalDist geom lightEm FinalSample.createEmpty).2 = Vec3.zero := by
  have hd : InitialResampling.visibilityDiscard s true 0 = RisState.createEmpty 2 := by
    unfold InitialResampling.visibilityDiscard
    simp [hvalid, hpath]
  have hr : InitialResampling.finalize s true 0
      = ⟨LightSample.createInvalid, 1, 0, 2, 0⟩ := by
    simp [InitialResampling.finalize, hd, RisState.createEmpty,
      RisState.toReservoir, isinfQ, isnanQ, qToUInt]
  rw [hr]
  refine ⟨rfl, rfl, rfl, ?_⟩
  simp [EvaluateFinalSamples.evalPathIncidentRadiance, Reservoir.isLightSampleValid,
    LightSample.isValid, LightSample.createInvalid, FinalSample.createEmpty]

/-- Witness for C8: the concrete selected state is discarded by occlusion,
yet the stored `M` is `1`. -/
theorem C8_visibility_discard_witness :
    (InitialResampling.finalize exampleFinalState true 0).weight = 0
    ∧ (InitialResampling.finalize exampleFinalState true 0).M = 1 := by
  have h := C8_visibility_discard exampleFinalState (by decide) rfl
    Vec3.zero Vec3.zero Vec3.zero false 0 0 0
  exact ⟨h.2.1, h.2.2.1⟩

/-- Static configuration used by the C9 witness. -/
def exampleParams : InitialParams := ⟨8, 32, 8, 4, false⟩

/-- Light population used by the C9 witness. -/
def exampleEnv : LightEnv :=
  ⟨fun _ => ⟨LightKind.emissive, 0⟩, fun _ => 1, fun _ => 1, fun _ => 1, fun _ => 1⟩

/-- C9: the per-pixel initial resampling is deterministic — its output
depends on the frame index and ReSTIR pass index only through the derived
sample number `frameIndex + 8 * restirPassIdx` that seeds the per-thread
generators, so two runs with identical pixel, light population and derived
seeds produce identical reservoirs. -/
theorem C9_initial_determinism (p : InitialParams) (env : LightEnv)
    (pixel : ℕ × ℕ) (f i f' i' : ℕ) (h : f + 8 * i = f' + 8 * i') :
    InitialResampling.process p env pixel f i
      = InitialResampling.process p env pixel f' i' := by
  unfold InitialResampling.process
  rw [h]

/-- Witness for C9: frame 8 / pass 0 and frame 0 / pass 1 derive the same
sample number and produce the identical reservoir. -/
theorem C9_initial_determinism_witness :
    InitialResampling.process exampleParams exampleEnv (3, 5) 8 0
      = InitialResampling.process exampleParams exampleEnv (3, 5) 0 1 :=
  C9_initial_determinism exampleParams exampleEnv (3, 5) 8 0 0 1 (by norm_num)

end ReSTIRGDI
